import Mathlib

/-!
The dropdown driver of `src/main.c`.

A shallow embedding of the language-picker example: the two hover callbacks
(`HandleDropdownClick`, `HandleOptionClick`), the initialisation and cleanup
paths of `main`, and one pass of its frame loop (event drain, layout, render).

Library code (SDL, SDL_ttf, Clay, the i19c translator) is not part of
`main.c`.  Every call into it is recorded, in program order, in a trace of
`Call`s; whatever a library call returns is an input of the model (`Env` for
the start-up calls, `Frame` for what one pass of the loop observes).
Geometry (floating-point positions, sizes and bounding boxes) is left out of
the trace entries; no control flow of `main.c` depends on it.
-/

namespace I19cExample

/-- A non-null pointer handed out by a library (window, renderer, font, heap block). -/
abbrev Handle := Nat

/-- Largest value of the C type `int` (32 bits). -/
def INT_MAX : Int := 2147483647

/-- Conversion of a `uint32_t` to `int`, as done by the assignment
`state->selectedIndex = elementId.offset` (values above `INT_MAX` wrap). -/
def intOfUInt32 (n : Nat) : Int :=
  if ((n % 4294967296 : Nat) : Int) ≤ INT_MAX then ((n % 4294967296 : Nat) : Int)
  else ((n % 4294967296 : Nat) : Int) - 4294967296

/-- The struct `Config`, main.c:15-18. -/
structure Config where
  width : Int
  height : Int
deriving DecidableEq, Repr

/-- The struct `DropdownState`, main.c:20-25.  `options` is the array the C pointer
points to; a read outside it is undefined behaviour (see `readOption`). -/
structure DropdownState where
  options : List String
  optionCount : Int
  selectedIndex : Int
  isOpen : Bool
deriving DecidableEq, Repr

/-- The function `get_config`, main.c:32-35. -/
def get_config : Config := { width := 800, height := 600 }

/-- The enum `Clay_PointerDataInteractionState` of clay.h. -/
inductive Clay_PointerDataInteractionState
  | PRESSED_THIS_FRAME
  | PRESSED
  | RELEASED_THIS_FRAME
  | RELEASED
deriving DecidableEq, Repr

/-- The struct `Clay_PointerData` of clay.h; the handlers read only `state`. -/
structure Clay_PointerData where
  state : Clay_PointerDataInteractionState
deriving DecidableEq, Repr

/-- The struct `Clay_ElementId` of clay.h; `offset` is a `uint32_t`. -/
structure Clay_ElementId where
  id : Nat
  offset : Nat
  baseId : Nat
  stringId : String
deriving DecidableEq, Repr

/-- The struct `Clay_Color` of clay.h. -/
structure Clay_Color where
  r : Nat
  g : Nat
  b : Nat
  a : Nat
deriving DecidableEq, Repr

/-- The two hover callbacks registered with `Clay_OnHover`. -/
inductive Handler
  | HandleDropdownClick
  | HandleOptionClick
deriving DecidableEq, Repr

/-- One call from `main.c` into a library, with the arguments and results that matter. -/
inductive Call
  | SDL_SetLogPriorities
  | SDL_Init (ok : Bool)
  | SDL_Log (msg : String)
  | SDL_Quit
  | TTF_Init (ok : Bool)
  | TTF_Quit
  | srand
  | get_i19c
  | set_lang_i19c (name : String)
  | T (key : String)
  | SDL_CreateWindow (title : String) (w h : Int) (result : Option Handle)
  | SDL_DestroyWindow (window : Handle)
  | SDL_CreateRenderer (window : Handle) (name : String) (result : Option Handle)
  | SDL_DestroyRenderer (renderer : Handle)
  | TTF_OpenFont (path : String) (ptsize : Nat) (result : Option Handle)
  | TTF_CloseFont (font : Option Handle)
  | Clay_MinMemorySize
  | malloc (result : Option Handle)
  | free (memory : Handle)
  | Clay_CreateArenaWithCapacityAndMemory (memory : Handle)
  | Clay_Initialize (w h : Int) (ok : Bool)
  | Clay_SetMeasureTextFunction
  | Clay_SetDebugModeEnabled (enabled : Bool)
  | Clay_SetLayoutDimensions (w h : Int)
  | Clay_SetPointerState (pointerDown : Bool)
  | Clay_BeginLayout
  | CLAY_open (id : String) (index : Nat) (backgroundColor : Clay_Color)
  | CLAY_close
  | CLAY_TEXT (text : String) (textColor : Clay_Color)
  | Clay_OnHover (fn : Handler)
  | Clay_EndLayout
  | SDL_SetRenderDrawColor (color : Clay_Color)
  | SDL_RenderClear
  | SDL_RenderFillRect
  | SDL_RenderRect
  | RenderText (font : Option Handle) (text : String) (color : Clay_Color)
  | SDL_RenderPresent
deriving DecidableEq, Repr

/-- What the handlers can touch: `dropdownState` (reached through `userData`) and
the outside world, seen as the calls made so far. -/
structure World where
  dropdown : DropdownState
  trace : List Call
deriving DecidableEq, Repr

/-- The read `options[i]` for an `int` index: `none` when the index is outside the array. -/
def readOption (options : List String) (i : Int) : Option String :=
  if 0 ≤ i then options[i.toNat]? else none

/-- The function `HandleDropdownClick`, main.c:62-67. -/
def HandleDropdownClick (_elementId : Clay_ElementId) (pointerData : Clay_PointerData)
    (w : World) : World :=
  if pointerData.state = Clay_PointerDataInteractionState.PRESSED_THIS_FRAME then
    { w with dropdown := { w.dropdown with isOpen := !w.dropdown.isOpen } }
  else w

/-- The function `HandleOptionClick`, main.c:74-84.  `none` is the out-of-bounds
read of `state->options[state->selectedIndex]`. -/
def HandleOptionClick (elementId : Clay_ElementId) (pointerData : Clay_PointerData)
    (w : World) : Option World :=
  if pointerData.state = Clay_PointerDataInteractionState.PRESSED_THIS_FRAME then
    let state : DropdownState := { w.dropdown with selectedIndex := intOfUInt32 elementId.offset }
    match readOption state.options state.selectedIndex with
    | none => none
    | some name =>
      some { dropdown := { state with isOpen := false },
             trace := w.trace ++ [Call.set_lang_i19c name] }
  else some w

/-- One invocation of a registered hover callback by Clay. -/
structure Callback where
  handler : Handler
  elementId : Clay_ElementId
  pointerData : Clay_PointerData
deriving DecidableEq, Repr

/-- Clay calling one registered callback with the user data given at registration
(main.c:253 and main.c:301). -/
def invoke (cb : Callback) (w : World) : Option World :=
  match cb.handler with
  | Handler.HandleDropdownClick => some (HandleDropdownClick cb.elementId cb.pointerData w)
  | Handler.HandleOptionClick => HandleOptionClick cb.elementId cb.pointerData w

/-- A sequence of callback invocations, in order. -/
def runCallbacks : List Callback → World → Option World
  | [], w => some w
  | cb :: cbs, w =>
    match invoke cb w with
    | none => none
    | some w1 => runCallbacks cbs w1

/-- The language name carried by a `set_lang_i19c` call. -/
def Call.setLangArg : Call → Option String
  | Call.set_lang_i19c name => some name
  | _ => none

/-- The arguments of the `set_lang_i19c` calls in a trace, oldest first. -/
def setLangArgs (t : List Call) : List String := t.filterMap Call.setLangArg

/-- The language most recently passed to `set_lang_i19c`, if any. -/
def lastLang (t : List Call) : Option String := (setLangArgs t).getLast?

/-- The array `dropdownOptions`, main.c:174-177. -/
def dropdownOptions : List String := ["english", "tamil"]

/-- The initial value of `dropdownState`, main.c:179-184. -/
def dropdownState : DropdownState :=
  { options := dropdownOptions, optionCount := 2, selectedIndex := 0, isOpen := false }

/-- The results of the fallible library calls made while `main` starts up
(`none` and `false` are the failures). -/
structure Env where
  SDL_Init : Bool
  TTF_Init : Bool
  SDL_CreateWindow : Option Handle
  SDL_CreateRenderer : Option Handle
  TTF_OpenFont : Option Handle
  malloc : Option Handle
  Clay_Initialize : Bool
deriving DecidableEq, Repr

/-- What `main` holds once start-up is through: the pointers it will release at
shutdown. -/
structure Resources where
  window : Handle
  renderer : Handle
  font : Option Handle
  memory : Handle
deriving DecidableEq, Repr

/-- The path of the font file, main.c:139. -/
def fontPath : String := "assets/font/NotoSansTamil-VariableFont_wdth,wght.ttf"

/-- Start-up of `main`, main.c:104-172.  `Except.error` is an early `return` with its
exit code; both sides carry the calls made. -/
def init (env : Env) : Except (Int × List Call) (Resources × List Call) :=
  let t := [Call.SDL_SetLogPriorities, Call.SDL_Init env.SDL_Init]
  if !env.SDL_Init then
    Except.error (1, t ++ [Call.SDL_Log "Err: SDL_Init failed: %s"])
  else
  let t := t ++ [Call.TTF_Init env.TTF_Init]
  if !env.TTF_Init then
    Except.error (1, t ++ [Call.SDL_Log "Err: TTF_Init failed: %s", Call.SDL_Quit])
  else
  let ctx := get_config
  let t := t ++ [Call.srand, Call.get_i19c, Call.set_lang_i19c "english",
    Call.SDL_CreateWindow "Dropdown Example" ctx.width ctx.height env.SDL_CreateWindow]
  match env.SDL_CreateWindow with
  | none =>
    Except.error (1, t ++ [Call.SDL_Log "Err: SDL_CreateWindow failed: %s",
      Call.TTF_Quit, Call.SDL_Quit])
  | some window =>
  let t := t ++ [Call.SDL_CreateRenderer window "software" env.SDL_CreateRenderer]
  match env.SDL_CreateRenderer with
  | none =>
    Except.error (1, t ++ [Call.SDL_Log "Err: SDL_CreateRenderer failed: %s",
      Call.SDL_DestroyWindow window, Call.TTF_Quit, Call.SDL_Quit])
  | some renderer =>
  let font := env.TTF_OpenFont
  let t := t ++ [Call.TTF_OpenFont fontPath 16 font, Call.Clay_MinMemorySize,
    Call.malloc env.malloc]
  match env.malloc with
  | none =>
    Except.error (1, t ++ [Call.SDL_Log "Err: Failed to allocate memory for Clay",
      Call.TTF_CloseFont font, Call.SDL_DestroyRenderer renderer,
      Call.SDL_DestroyWindow window, Call.TTF_Quit, Call.SDL_Quit])
  | some memory =>
  let t := t ++ [Call.Clay_CreateArenaWithCapacityAndMemory memory,
    Call.Clay_Initialize ctx.width ctx.height env.Clay_Initialize]
  if !env.Clay_Initialize then
    Except.error (1, t ++ [Call.SDL_Log "Err: Clay_Initialize failed", Call.free memory,
      Call.TTF_CloseFont font, Call.SDL_DestroyRenderer renderer,
      Call.SDL_DestroyWindow window, Call.TTF_Quit, Call.SDL_Quit])
  else
  Except.ok ({ window := window, renderer := renderer, font := font, memory := memory },
    t ++ [Call.Clay_SetMeasureTextFunction, Call.Clay_SetDebugModeEnabled false,
      Call.get_i19c])

/-- The SDL events `main` tells apart, main.c:195-209.  `MOUSE_MOTION` carries
`e.motion.state & SDL_BUTTON_LMASK`; the button events carry `e.button.button`. -/
inductive SDL_Event
  | QUIT
  | WINDOW_RESIZED (data1 data2 : Int)
  | MOUSE_MOTION (lmask : Bool)
  | MOUSE_BUTTON_DOWN (button : Nat)
  | MOUSE_BUTTON_UP (button : Nat)
  | OTHER
deriving DecidableEq, Repr

/-- The constant `SDL_BUTTON_LEFT` of SDL. -/
def SDL_BUTTON_LEFT : Nat := 1

/-- One event returned by `SDL_PollEvent`, together with the hover callbacks Clay
invokes if `main` answers it with `Clay_SetPointerState` (Clay fires the callbacks
registered with `Clay_OnHover` from inside that call). -/
structure Polled where
  e : SDL_Event
  hover : List Callback
deriving DecidableEq, Repr

/-- The call `Clay_SetPointerState(position, pointerDown)` and the callbacks it fires. -/
def Clay_SetPointerState (pointerDown : Bool) (hover : List Callback) (w : World) :
    Option World :=
  runCallbacks hover { w with trace := w.trace ++ [Call.Clay_SetPointerState pointerDown] }

/-- The inner loop `while (SDL_PollEvent(&e))`, main.c:194-210, over the events
pending in this frame.  The Boolean is the variable `running`. -/
def drainEvents : List Polled → Bool → World → Option (Bool × World)
  | [], running, w => some (running, w)
  | p :: ps, running, w =>
    match p.e with
    | SDL_Event.QUIT => drainEvents ps false w
    | SDL_Event.WINDOW_RESIZED data1 data2 =>
      drainEvents ps running
        { w with trace := w.trace ++ [Call.Clay_SetLayoutDimensions data1 data2] }
    | SDL_Event.MOUSE_MOTION lmask =>
      match Clay_SetPointerState lmask p.hover w with
      | none => none
      | some w1 => drainEvents ps running w1
    | SDL_Event.MOUSE_BUTTON_DOWN button =>
      if button = SDL_BUTTON_LEFT then
        match Clay_SetPointerState true p.hover w with
        | none => none
        | some w1 => drainEvents ps running w1
      else drainEvents ps running w
    | SDL_Event.MOUSE_BUTTON_UP button =>
      if button = SDL_BUTTON_LEFT then
        match Clay_SetPointerState false p.hover w with
        | none => none
        | some w1 => drainEvents ps running w1
      else drainEvents ps running w
    | SDL_Event.OTHER => drainEvents ps running w

/-- The values the loop variable takes in `for (int i = 0; i < optionCount; i++)`,
main.c:284. -/
def loopIndices (state : DropdownState) : List Nat := List.range state.optionCount.toNat

/-- The variable `bgColor` of the option loop for one `i`, main.c:285-291.  `hovered i`
is what `Clay_Hovered()` returns in this iteration. -/
def bgColor (state : DropdownState) (hovered : Nat → Bool) (i : Nat) : Clay_Color :=
  let bgColor : Clay_Color :=
    if (i : Int) = state.selectedIndex then ⟨240, 240, 240, 255⟩ else ⟨255, 255, 255, 255⟩
  if hovered i && decide ((i : Int) ≠ state.selectedIndex) then ⟨245, 245, 245, 255⟩
  else bgColor

/-- The body of the option loop for one `i`, main.c:285-310: the calls that declare
the option element; `none` is an out-of-bounds read of `dropdownState.options[i]`. -/
def optionElement (state : DropdownState) (hovered : Nat → Bool) (i : Nat) :
    Option (List Call) :=
  match readOption state.options (i : Int) with
  | none => none
  | some label =>
    some [Call.CLAY_open "DropdownOption" i (bgColor state hovered i),
      Call.Clay_OnHover Handler.HandleOptionClick,
      Call.CLAY_TEXT label ⟨60, 60, 60, 255⟩,
      Call.CLAY_close]

/-- The option loop, main.c:284-311, over the values of `i` still to come. -/
def optionLoop (state : DropdownState) (hovered : Nat → Bool) : List Nat → Option (List Call)
  | [] => some []
  | i :: rest =>
    match optionElement state hovered i with
    | none => none
    | some el =>
      match optionLoop state hovered rest with
      | none => none
      | some els => some (el ++ els)

/-- A render command as `main` reads it, main.c:323-367; `null` is a NULL returned by
`Clay_RenderCommandArray_Get`. -/
inductive RenderCommand
  | null
  | RECTANGLE (backgroundColor : Clay_Color)
  | BORDER (color : Clay_Color)
  | TEXT (textColor : Clay_Color) (stringContents : String)
  | OTHER
deriving DecidableEq, Repr

/-- What one pass of the frame loop gets from outside: the pending events, the string
returned by `T(lang_ctx, "GREETING")`, the answers of `Clay_Hovered()` in the option
loop, and the render commands returned by `Clay_EndLayout()`. -/
structure Frame where
  events : List Polled
  greeting : String
  hovered : Nat → Bool
  renderCommands : List RenderCommand

/-- The layout pass, main.c:212-317: the calls made between `Clay_BeginLayout` and
`Clay_EndLayout`, both included. -/
def buildLayout (f : Frame) (state : DropdownState) : Option (List Call) :=
  let head : List Call :=
    [Call.Clay_BeginLayout,
     Call.CLAY_open "MainContainer" 0 ⟨230, 230, 250, 255⟩,
     Call.CLAY_open "ContentWrapper" 0 ⟨0, 0, 0, 0⟩,
     Call.T "GREETING",
     Call.CLAY_TEXT f.greeting ⟨0, 0, 0, 255⟩,
     Call.CLAY_open "DropdownButton" 0 ⟨0, 0, 0, 255⟩,
     Call.Clay_OnHover Handler.HandleDropdownClick,
     Call.CLAY_TEXT "Select language!!!" ⟨255, 255, 255, 255⟩,
     Call.CLAY_close]
  let tail : List Call := [Call.CLAY_close, Call.CLAY_close, Call.Clay_EndLayout]
  if state.isOpen then
    match optionLoop state f.hovered (loopIndices state) with
    | none => none
    | some els =>
      some (head ++ [Call.CLAY_open "DropdownOptions" 0 ⟨255, 255, 255, 255⟩] ++ els
        ++ [Call.CLAY_close] ++ tail)
  else some (head ++ tail)

/-- The calls made for one render command, main.c:326-367.  The temporary copy of the
text is not recorded. -/
def renderCommand (font : Option Handle) : RenderCommand → List Call
  | RenderCommand.null => []
  | RenderCommand.RECTANGLE color => [Call.SDL_SetRenderDrawColor color, Call.SDL_RenderFillRect]
  | RenderCommand.BORDER color => [Call.SDL_SetRenderDrawColor color, Call.SDL_RenderRect]
  | RenderCommand.TEXT textColor s => [Call.RenderText font s textColor]
  | RenderCommand.OTHER => []

/-- The render pass, main.c:319-370. -/
def render (font : Option Handle) (cmds : List RenderCommand) : List Call :=
  [Call.SDL_SetRenderDrawColor ⟨255, 255, 255, 255⟩, Call.SDL_RenderClear]
    ++ (cmds.map (renderCommand font)).flatten ++ [Call.SDL_RenderPresent]

/-- One pass of the body of `while (running)`, main.c:193-370.  The Boolean is the
value of `running` at the end of the pass. -/
def frame (font : Option Handle) (f : Frame) (w : World) : Option (Bool × World) :=
  match drainEvents f.events true w with
  | none => none
  | some (running, w1) =>
    match buildLayout f w1.dropdown with
    | none => none
    | some layout =>
      some (running,
        { w1 with trace := w1.trace ++ layout ++ render font f.renderCommands })

/-- Why a run of the model gives no exit code. -/
inductive Stop
  | undefinedBehaviour
  | inputExhausted
deriving DecidableEq, Repr

/-- The loop `while (running)`, main.c:192-371, fed with the frames that happen.
When the frames run out while `running` is still true the program has not returned. -/
def mainLoop (font : Option Handle) : List Frame → World → Except Stop World
  | [], _ => Except.error Stop.inputExhausted
  | f :: fs, w =>
    match frame font f w with
    | none => Except.error Stop.undefinedBehaviour
    | some (running, w1) => if running then mainLoop font fs w1 else Except.ok w1

/-- The function `main`, main.c:103-380: the exit code and every library call made. -/
def main (env : Env) (frames : List Frame) : Except Stop (Int × List Call) :=
  match init env with
  | Except.error r => Except.ok r
  | Except.ok (res, t) =>
    match mainLoop res.font frames { dropdown := dropdownState, trace := t } with
    | Except.error e => Except.error e
    | Except.ok w =>
      Except.ok (0, w.trace ++ [Call.free res.memory, Call.TTF_CloseFont res.font,
        Call.SDL_DestroyRenderer res.renderer, Call.SDL_DestroyWindow res.window,
        Call.TTF_Quit, Call.SDL_Quit])

/-- Something `main` acquires and must give back. -/
inductive Resource
  | sdl
  | ttf
  | window (h : Handle)
  | renderer (h : Handle)
  | font (h : Handle)
  | memory (h : Handle)
deriving DecidableEq, Repr

/-- The resource a call acquires, if it is a successful acquisition. -/
def Call.acquires : Call → Option Resource
  | Call.SDL_Init true => some Resource.sdl
  | Call.TTF_Init true => some Resource.ttf
  | Call.SDL_CreateWindow _ _ _ (some h) => some (Resource.window h)
  | Call.SDL_CreateRenderer _ _ (some h) => some (Resource.renderer h)
  | Call.TTF_OpenFont _ _ (some h) => some (Resource.font h)
  | Call.malloc (some h) => some (Resource.memory h)
  | _ => none

/-- The resource a call releases; `TTF_CloseFont(NULL)` releases nothing. -/
def Call.releases : Call → Option Resource
  | Call.SDL_Quit => some Resource.sdl
  | Call.TTF_Quit => some Resource.ttf
  | Call.SDL_DestroyWindow h => some (Resource.window h)
  | Call.SDL_DestroyRenderer h => some (Resource.renderer h)
  | Call.TTF_CloseFont (some h) => some (Resource.font h)
  | Call.free h => some (Resource.memory h)
  | _ => none

/-- The index of a declared element, if it is one of the "DropdownOption" elements. -/
def Call.optionIndex : Call → Option Nat
  | Call.CLAY_open id index _ => if id = "DropdownOption" then some index else none
  | _ => none

/-- The string of a declared text element. -/
def Call.text : Call → Option String
  | Call.CLAY_TEXT text _ => some text
  | _ => none

/-- The key of a lookup `T(lang_ctx, key)`. -/
def Call.lookupKey : Call → Option String
  | Call.T key => some key
  | _ => none

/-- The lookups of a trace, each paired with the language in force when it is made:
the argument of the latest `set_lang_i19c` before it (`cur` when the trace has none
before it). -/
def lookupsUnder : Option String → List Call → List (String × Option String)
  | _, [] => []
  | cur, c :: t =>
    match c with
    | Call.set_lang_i19c name => lookupsUnder (some name) t
    | Call.T key => (key, cur) :: lookupsUnder cur t
    | _ => lookupsUnder cur t

/-- The option array and its count are the ones `main` sets up. -/
def Shape (w : World) : Prop :=
  w.dropdown.options = dropdownOptions ∧ w.dropdown.optionCount = 2

/-- What holds of `dropdownState` and the trace from the end of start-up on: the option
array and its count are the initial ones, the selected index is inside the array, the
selected option is the language last passed to `set_lang_i19c`, and every language ever
passed is one of the options. -/
def Inv (w : World) : Prop :=
  w.dropdown.options = dropdownOptions ∧
  w.dropdown.optionCount = 2 ∧
  (w.dropdown.selectedIndex = 0 ∨ w.dropdown.selectedIndex = 1) ∧
  (∃ name, readOption w.dropdown.options w.dropdown.selectedIndex = some name ∧
    lastLang w.trace = some name) ∧
  (∀ name ∈ setLangArgs w.trace, name ∈ dropdownOptions)

/-- Whether a call is a `set_lang_i19c`. -/
def Call.isSetLang (c : Call) : Bool := c.setLangArg.isSome

/-- The `pointerDown` argument with which `main` calls `Clay_SetPointerState` for an
event, main.c:199-209; `none` for an event it answers with no such call. -/
def SDL_Event.pointerDown : SDL_Event → Option Bool
  | SDL_Event.MOUSE_MOTION lmask => some lmask
  | SDL_Event.MOUSE_BUTTON_DOWN button => if button = SDL_BUTTON_LEFT then some true else none
  | SDL_Event.MOUSE_BUTTON_UP button => if button = SDL_BUTTON_LEFT then some false else none
  | _ => none

/-- The Clay call with which `main` answers an event, main.c:195-209; `none` for an
event it answers with no Clay call. -/
def SDL_Event.answer : SDL_Event → Option Call
  | SDL_Event.WINDOW_RESIZED data1 data2 => some (Call.Clay_SetLayoutDimensions data1 data2)
  | e => e.pointerDown.map Call.Clay_SetPointerState

/-- The hover callbacks Clay fires during one drain: those of the events that `main`
answers with `Clay_SetPointerState`, in the order of the events. -/
def firedCallbacks (events : List Polled) : List Callback :=
  events.flatMap fun p => if p.e.pointerDown.isSome then p.hover else []

/-- The state at the top of `while (running)` after the given passes, main.c:192;
`none` when a pass has ended the loop or has no defined behaviour. -/
def loopState (font : Option Handle) : List Frame → World → Option World
  | [], w => some w
  | f :: fs, w =>
    match frame font f w with
    | none => none
    | some (running, w1) => if running then loopState font fs w1 else none

/-- A start-up in which every library call succeeds. -/
def sampleEnv : Env :=
  { SDL_Init := true, TTF_Init := true, SDL_CreateWindow := some 1,
    SDL_CreateRenderer := some 2, TTF_OpenFont := some 3, malloc := some 4,
    Clay_Initialize := true }

/-- A pass with no pending event. -/
def idleFrame : Frame :=
  { events := [], greeting := "Hello", hovered := fun _ => false,
    renderCommands := [RenderCommand.TEXT ⟨0, 0, 0, 255⟩ "Hello"] }

/-- A pass in which the left button goes down over the dropdown button. -/
def openFrame : Frame :=
  { events :=
      [⟨SDL_Event.MOUSE_BUTTON_DOWN 1,
        [⟨Handler.HandleDropdownClick, ⟨5, 0, 5, "DropdownButton"⟩,
          ⟨Clay_PointerDataInteractionState.RELEASED⟩⟩]⟩,
       ⟨SDL_Event.MOUSE_MOTION true,
        [⟨Handler.HandleDropdownClick, ⟨5, 0, 5, "DropdownButton"⟩,
          ⟨Clay_PointerDataInteractionState.PRESSED_THIS_FRAME⟩⟩]⟩],
    greeting := "Hello", hovered := fun _ => false,
    renderCommands := [RenderCommand.TEXT ⟨0, 0, 0, 255⟩ "Hello"] }

/-- A pass in which the left button goes down over the option "tamil", followed by a
resize of the window. -/
def tamilFrame : Frame :=
  { events :=
      [⟨SDL_Event.MOUSE_BUTTON_DOWN 1,
        [⟨Handler.HandleOptionClick, ⟨7, 1, 6, "DropdownOption"⟩,
          ⟨Clay_PointerDataInteractionState.RELEASED⟩⟩]⟩,
       ⟨SDL_Event.MOUSE_MOTION true,
        [⟨Handler.HandleOptionClick, ⟨7, 1, 6, "DropdownOption"⟩,
          ⟨Clay_PointerDataInteractionState.PRESSED_THIS_FRAME⟩⟩]⟩,
       ⟨SDL_Event.WINDOW_RESIZED 640 480, []⟩],
    greeting := "Vanakkam", hovered := fun _ => true,
    renderCommands :=
      [RenderCommand.RECTANGLE ⟨230, 230, 250, 255⟩, RenderCommand.TEXT ⟨0, 0, 0, 255⟩ "Vanakkam"] }

/-- The resources acquired along a trace, in order. -/
def acquired (t : List Call) : List Resource := t.filterMap Call.acquires

/-- The resources released along a trace, in order. -/
def released (t : List Call) : List Resource := t.filterMap Call.releases

/-! ## Helper lemmas -/

theorem intOfUInt32_of_le (n : Nat) (h : (n : Int) ≤ INT_MAX) : intOfUInt32 n = (n : Int) := by
  have h1 : n < 4294967296 := by
    unfold INT_MAX at h
    omega
  have h2 : n % 4294967296 = n := Nat.mod_eq_of_lt h1
  unfold intOfUInt32
  rw [h2, if_pos h]

theorem readOption_natCast (l : List String) (n : Nat) : readOption l (n : Int) = l[n]? := by
  simp [readOption]

theorem setLangArgs_append (a b : List Call) :
    setLangArgs (a ++ b) = setLangArgs a ++ setLangArgs b := by
  simp [setLangArgs]

theorem lastLang_append_setLang (t : List Call) (name : String) :
    lastLang (t ++ [Call.set_lang_i19c name]) = some name := by
  simp [lastLang, setLangArgs, Call.setLangArg]

theorem HandleOptionClick_in_bounds (w : World) (elementId : Clay_ElementId) (name : String)
    (hmax : (elementId.offset : Int) ≤ INT_MAX)
    (hname : w.dropdown.options[elementId.offset]? = some name) :
    HandleOptionClick elementId ⟨Clay_PointerDataInteractionState.PRESSED_THIS_FRAME⟩ w
      = some { dropdown := { options := w.dropdown.options,
                             optionCount := w.dropdown.optionCount,
                             selectedIndex := (elementId.offset : Int),
                             isOpen := false },
               trace := w.trace ++ [Call.set_lang_i19c name] } := by
  simp [HandleOptionClick, intOfUInt32_of_le _ hmax, readOption_natCast, hname]

/-! ## The click handlers -/

/-- C1: a pressed click on an option whose offset is a valid index selects that
index, passes `options[offset]` to `set_lang_i19c` in exactly one new call, closes the
dropdown and leaves `options` and `optionCount` alone. -/
theorem HandleOptionClick_pressed (s : DropdownState) (t : List Call)
    (elementId : Clay_ElementId) (pointerData : Clay_PointerData)
    (hpressed : pointerData.state = Clay_PointerDataInteractionState.PRESSED_THIS_FRAME)
    (hoffset : (elementId.offset : Int) < s.optionCount)
    (hint : s.optionCount ≤ INT_MAX)
    (hlen : s.optionCount ≤ (s.options.length : Int)) :
    ∃ name, s.options[elementId.offset]? = some name ∧
      HandleOptionClick elementId pointerData { dropdown := s, trace := t }
        = some { dropdown := { options := s.options,
                               optionCount := s.optionCount,
                               selectedIndex := (elementId.offset : Int),
                               isOpen := false },
                 trace := t ++ [Call.set_lang_i19c name] } := by
  have hlt : elementId.offset < s.options.length := by omega
  refine ⟨s.options[elementId.offset], List.getElem?_eq_getElem hlt, ?_⟩
  obtain ⟨st⟩ := pointerData
  simp only at hpressed
  subst hpressed
  exact HandleOptionClick_in_bounds ⟨s, t⟩ elementId _ (by omega)
    (List.getElem?_eq_getElem hlt)

/-- C1, at a concrete input: a pressed click on offset 1 of the initial dropdown. -/
theorem HandleOptionClick_pressed_witness :
    ((1 : Nat) : Int) < dropdownState.optionCount ∧
    dropdownState.optionCount ≤ INT_MAX ∧
    dropdownState.optionCount ≤ (dropdownState.options.length : Int) ∧
    ∃ name, dropdownState.options[1]? = some name ∧
      HandleOptionClick ⟨7, 1, 7, "DropdownOption"⟩
          ⟨Clay_PointerDataInteractionState.PRESSED_THIS_FRAME⟩
          { dropdown := dropdownState, trace := [] }
        = some { dropdown := { options := dropdownState.options,
                               optionCount := dropdownState.optionCount,
                               selectedIndex := ((1 : Nat) : Int),
                               isOpen := false },
                 trace := [] ++ [Call.set_lang_i19c name] } :=
  ⟨by decide, by decide, by decide,
   HandleOptionClick_pressed dropdownState [] ⟨7, 1, 7, "DropdownOption"⟩
     ⟨Clay_PointerDataInteractionState.PRESSED_THIS_FRAME⟩ rfl (by decide) (by decide)
     (by decide)⟩

/-- C9: a pressed click on the dropdown button negates `isOpen` and changes nothing
else (so a second press undoes the first), it adds no call to the trace, and with any
other pointer state neither handler changes the dropdown state or the trace. -/
theorem HandleDropdownClick_toggles (w : World) (elementId : Clay_ElementId) :
    HandleDropdownClick elementId ⟨Clay_PointerDataInteractionState.PRESSED_THIS_FRAME⟩ w
      = { dropdown := { options := w.dropdown.options,
                        optionCount := w.dropdown.optionCount,
                        selectedIndex := w.dropdown.selectedIndex,
                        isOpen := !w.dropdown.isOpen },
          trace := w.trace } ∧
    HandleDropdownClick elementId ⟨Clay_PointerDataInteractionState.PRESSED_THIS_FRAME⟩
      (HandleDropdownClick elementId ⟨Clay_PointerDataInteractionState.PRESSED_THIS_FRAME⟩ w)
      = w ∧
    HandleDropdownClick elementId ⟨Clay_PointerDataInteractionState.PRESSED⟩ w = w ∧
    HandleDropdownClick elementId ⟨Clay_PointerDataInteractionState.RELEASED_THIS_FRAME⟩ w = w ∧
    HandleDropdownClick elementId ⟨Clay_PointerDataInteractionState.RELEASED⟩ w = w ∧
    HandleOptionClick elementId ⟨Clay_PointerDataInteractionState.PRESSED⟩ w = some w ∧
    HandleOptionClick elementId ⟨Clay_PointerDataInteractionState.RELEASED_THIS_FRAME⟩ w
      = some w ∧
    HandleOptionClick elementId ⟨Clay_PointerDataInteractionState.RELEASED⟩ w = some w := by
  obtain ⟨⟨options, optionCount, selectedIndex, isOpen⟩, trace⟩ := w
  simp [HandleDropdownClick, HandleOptionClick]

/-! ## Start-up -/

theorem init_ok_setLangArgs (env : Env) (res : Resources) (t : List Call)
    (h : init env = Except.ok (res, t)) : setLangArgs t = ["english"] := by
  obtain ⟨a, b, c, d, e, f, g⟩ := env
  cases a <;> cases b <;> cases c <;> cases d <;> cases f <;> cases g <;>
    simp [init] at h
  obtain ⟨-, rfl⟩ := h
  simp [setLangArgs, Call.setLangArg]

/-! ## The invariant of the running driver -/

theorem Inv_start (env : Env) (res : Resources) (t : List Call)
    (h : init env = Except.ok (res, t)) : Inv { dropdown := dropdownState, trace := t } := by
  have ht := init_ok_setLangArgs env res t h
  refine ⟨rfl, rfl, Or.inl rfl, ⟨"english", ?_, ?_⟩, ?_⟩
  · simp [readOption, dropdownState, dropdownOptions]
  · simp [lastLang, ht]
  · intro name hname
    simp only [ht] at hname
    simp [dropdownOptions] at hname ⊢
    exact Or.inl hname

theorem Inv_HandleDropdownClick (w : World) (elementId : Clay_ElementId)
    (pointerData : Clay_PointerData) (h : Inv w) :
    Inv (HandleDropdownClick elementId pointerData w) := by
  unfold HandleDropdownClick
  split
  · exact h
  · exact h

theorem Inv_HandleOptionClick (w : World) (elementId : Clay_ElementId)
    (pointerData : Clay_PointerData) (h : Inv w) (hoffset : (elementId.offset : Int) < 2) :
    ∃ w1, HandleOptionClick elementId pointerData w = some w1 ∧ Inv w1 := by
  obtain ⟨st⟩ := pointerData
  obtain ⟨hopt, hcount, hsel, hlast, hall⟩ := h
  by_cases hst : st = Clay_PointerDataInteractionState.PRESSED_THIS_FRAME
  · subst hst
    have hcases : elementId.offset = 0 ∨ elementId.offset = 1 := by omega
    have hmax : (elementId.offset : Int) ≤ INT_MAX := by
      unfold INT_MAX
      omega
    have hname : ∃ name, w.dropdown.options[elementId.offset]? = some name ∧
        name ∈ dropdownOptions := by
      rcases hcases with h0 | h1
      · exact ⟨"english", by simp [h0, hopt, dropdownOptions], by simp [dropdownOptions]⟩
      · exact ⟨"tamil", by simp [h1, hopt, dropdownOptions], by simp [dropdownOptions]⟩
    obtain ⟨name, hget, hmem⟩ := hname
    refine ⟨_, HandleOptionClick_in_bounds w elementId name hmax hget, hopt, hcount, ?_, ?_, ?_⟩
    · rcases hcases with h0 | h1
      · exact Or.inl (by simp [h0])
      · exact Or.inr (by simp [h1])
    · exact ⟨name, by simpa [readOption_natCast] using hget, lastLang_append_setLang _ _⟩
    · intro n hn
      simp only [setLangArgs_append, List.mem_append] at hn
      rcases hn with hn | hn
      · exact hall n hn
      · simp [setLangArgs, Call.setLangArg] at hn
        rw [hn]
        exact hmem
  · exact ⟨w, by simp [HandleOptionClick, hst], hopt, hcount, hsel, hlast, hall⟩

theorem Inv_invoke (cb : Callback) (w : World) (h : Inv w)
    (hoffset : (cb.elementId.offset : Int) < 2) :
    ∃ w1, invoke cb w = some w1 ∧ Inv w1 := by
  unfold invoke
  cases cb.handler with
  | HandleDropdownClick => exact ⟨_, rfl, Inv_HandleDropdownClick w _ _ h⟩
  | HandleOptionClick => exact Inv_HandleOptionClick w _ _ h hoffset

theorem Inv_runCallbacks (cbs : List Callback) (w : World) (h : Inv w)
    (hoffsets : ∀ cb ∈ cbs, (cb.elementId.offset : Int) < 2) :
    ∃ w1, runCallbacks cbs w = some w1 ∧ Inv w1 := by
  induction cbs generalizing w with
  | nil => exact ⟨w, rfl, h⟩
  | cons cb cbs ih =>
    obtain ⟨w1, hw1, hinv1⟩ := Inv_invoke cb w h (hoffsets cb (List.mem_cons_self _ _))
    obtain ⟨w2, hw2, hinv2⟩ := ih w1 hinv1 (fun c hc => hoffsets c (List.mem_cons_of_mem _ hc))
    exact ⟨w2, by simp [runCallbacks, hw1, hw2], hinv2⟩

/-! ## Selection and the active language -/

/-- C2: from the state `main` enters its loop with (index 0, language "english"), any
sequence of the two handlers with offsets below `optionCount` runs through, and
afterwards `options[selectedIndex]` is the language last passed to `set_lang_i19c`. -/
theorem selectedIndex_is_active_language (env : Env) (res : Resources) (t : List Call)
    (cbs : List Callback)
    (hinit : init env = Except.ok (res, t))
    (hoffsets : ∀ cb ∈ cbs, (cb.elementId.offset : Int) < dropdownState.optionCount) :
    dropdownState.selectedIndex = 0 ∧ lastLang t = some "english" ∧
    ∃ w name, runCallbacks cbs { dropdown := dropdownState, trace := t } = some w ∧
      readOption w.dropdown.options w.dropdown.selectedIndex = some name ∧
      lastLang w.trace = some name := by
  obtain ⟨w, hrun, -, -, -, ⟨name, hread, hlast⟩, -⟩ :=
    Inv_runCallbacks cbs _ (Inv_start env res t hinit) hoffsets
  refine ⟨rfl, ?_, w, name, hrun, hread, hlast⟩
  simp [lastLang, init_ok_setLangArgs env res t hinit]

/-- C2, at a concrete input: open the dropdown, pick "tamil". -/
theorem selectedIndex_is_active_language_witness :
    ∃ res t, init ⟨true, true, some 1, some 2, some 3, some 4, true⟩ = Except.ok (res, t) ∧
      dropdownState.selectedIndex = 0 ∧ lastLang t = some "english" ∧
      ∃ w name,
        runCallbacks
          [⟨Handler.HandleDropdownClick, ⟨5, 0, 5, "DropdownButton"⟩,
             ⟨Clay_PointerDataInteractionState.PRESSED_THIS_FRAME⟩⟩,
           ⟨Handler.HandleOptionClick, ⟨7, 1, 6, "DropdownOption"⟩,
             ⟨Clay_PointerDataInteractionState.PRESSED_THIS_FRAME⟩⟩]
          { dropdown := dropdownState, trace := t } = some w ∧
        readOption w.dropdown.options w.dropdown.selectedIndex = some name ∧
        lastLang w.trace = some name :=
  ⟨_, _, rfl,
   selectedIndex_is_active_language ⟨true, true, some 1, some 2, some 3, some 4, true⟩ _ _ _ rfl
     (by simp [dropdownState])⟩

/-- C7: every language the driver passes to `set_lang_i19c`, the call in `main`
included, is one of the options "english" and "tamil", in every state reached from
start-up through handler invocations with offsets below `optionCount`. -/
theorem set_lang_args_enumerated (env : Env) (res : Resources) (t : List Call)
    (cbs : List Callback)
    (hinit : init env = Except.ok (res, t))
    (hoffsets : ∀ cb ∈ cbs, (cb.elementId.offset : Int) < dropdownState.optionCount) :
    setLangArgs t = ["english"] ∧
    ∃ w, runCallbacks cbs { dropdown := dropdownState, trace := t } = some w ∧
      w.dropdown.options = ["english", "tamil"] ∧
      ∀ name ∈ setLangArgs w.trace, name ∈ ["english", "tamil"] := by
  obtain ⟨w, hrun, hopt, -, -, -, hall⟩ :=
    Inv_runCallbacks cbs _ (Inv_start env res t hinit) hoffsets
  exact ⟨init_ok_setLangArgs env res t hinit, w, hrun, hopt, hall⟩

/-- C7, at a concrete input: pick "tamil", then "english". -/
theorem set_lang_args_enumerated_witness :
    ∃ res t, init ⟨true, true, some 1, some 2, none, some 4, true⟩ = Except.ok (res, t) ∧
      setLangArgs t = ["english"] ∧
      ∃ w,
        runCallbacks
          [⟨Handler.HandleOptionClick, ⟨7, 1, 6, "DropdownOption"⟩,
             ⟨Clay_PointerDataInteractionState.PRESSED_THIS_FRAME⟩⟩,
           ⟨Handler.HandleOptionClick, ⟨6, 0, 6, "DropdownOption"⟩,
             ⟨Clay_PointerDataInteractionState.PRESSED_THIS_FRAME⟩⟩]
          { dropdown := dropdownState, trace := t } = some w ∧
        w.dropdown.options = ["english", "tamil"] ∧
        ∀ name ∈ setLangArgs w.trace, name ∈ ["english", "tamil"] :=
  ⟨_, _, rfl,
   set_lang_args_enumerated ⟨true, true, some 1, some 2, none, some 4, true⟩ _ _ _ rfl
     (by simp [dropdownState])⟩

/-- C8: from the state `main` enters its loop with, a pressed option click on offset 1
followed by one on offset 0 brings `dropdownState` back to its initial value; the two
clicks add the calls `set_lang_i19c("tamil")` and `set_lang_i19c("english")`, so the
language last set is "english", as it was at the start. -/
theorem tamil_then_english_restores (env : Env) (res : Resources) (t : List Call)
    (id1 id0 : Clay_ElementId)
    (hinit : init env = Except.ok (res, t))
    (h1 : id1.offset = 1) (h0 : id0.offset = 0) :
    lastLang t = some "english" ∧
    ∃ w1 w2,
      HandleOptionClick id1 ⟨Clay_PointerDataInteractionState.PRESSED_THIS_FRAME⟩
        { dropdown := dropdownState, trace := t } = some w1 ∧
      lastLang w1.trace = some "tamil" ∧
      HandleOptionClick id0 ⟨Clay_PointerDataInteractionState.PRESSED_THIS_FRAME⟩ w1
        = some w2 ∧
      w2.dropdown = dropdownState ∧
      w2.trace = t ++ [Call.set_lang_i19c "tamil", Call.set_lang_i19c "english"] ∧
      lastLang w2.trace = some "english" := by
  have hmax1 : (id1.offset : Int) ≤ INT_MAX := by rw [h1]; decide
  have hmax0 : (id0.offset : Int) ≤ INT_MAX := by rw [h0]; decide
  refine ⟨by simp [lastLang, init_ok_setLangArgs env res t hinit], _, _,
    HandleOptionClick_in_bounds _ id1 "tamil" hmax1 (by simp [h1, dropdownState, dropdownOptions]),
    lastLang_append_setLang _ _,
    HandleOptionClick_in_bounds _ id0 "english" hmax0
      (by simp [h0, dropdownState, dropdownOptions]),
    ?_, ?_, ?_⟩
  · simp [h0, dropdownState]
  · simp
  · simp [lastLang, setLangArgs, Call.setLangArg]

/-- C8, at a concrete input. -/
theorem tamil_then_english_restores_witness :
    ∃ res t, init ⟨true, true, some 10, some 11, some 12, some 13, true⟩ = Except.ok (res, t) ∧
      lastLang t = some "english" ∧
      ∃ w1 w2,
        HandleOptionClick ⟨7, 1, 6, "DropdownOption"⟩
          ⟨Clay_PointerDataInteractionState.PRESSED_THIS_FRAME⟩
          { dropdown := dropdownState, trace := t } = some w1 ∧
        lastLang w1.trace = some "tamil" ∧
        HandleOptionClick ⟨6, 0, 6, "DropdownOption"⟩
          ⟨Clay_PointerDataInteractionState.PRESSED_THIS_FRAME⟩ w1 = some w2 ∧
        w2.dropdown = dropdownState ∧
        w2.trace = t ++ [Call.set_lang_i19c "tamil", Call.set_lang_i19c "english"] ∧
        lastLang w2.trace = some "english" :=
  ⟨_, _, rfl,
   tamil_then_english_restores ⟨true, true, some 10, some 11, some 12, some 13, true⟩ _ _
     ⟨7, 1, 6, "DropdownOption"⟩ ⟨6, 0, 6, "DropdownOption"⟩ rfl rfl rfl⟩

/-! ## The options presented -/

theorem loopIndices_of_count_two (s : DropdownState) (h : s.optionCount = 2) :
    loopIndices s = [0, 1] := by
  simp [loopIndices, h, List.range_succ]

theorem optionLoop_of_Inv (s : DropdownState) (hovered : Nat → Bool)
    (hopt : s.options = dropdownOptions) (hcount : s.optionCount = 2) :
    optionLoop s hovered (loopIndices s)
      = some [Call.CLAY_open "DropdownOption" 0 (bgColor s hovered 0),
              Call.Clay_OnHover Handler.HandleOptionClick,
              Call.CLAY_TEXT "english" ⟨60, 60, 60, 255⟩,
              Call.CLAY_close,
              Call.CLAY_open "DropdownOption" 1 (bgColor s hovered 1),
              Call.Clay_OnHover Handler.HandleOptionClick,
              Call.CLAY_TEXT "tamil" ⟨60, 60, 60, 255⟩,
              Call.CLAY_close] := by
  rw [loopIndices_of_count_two s hcount]
  simp [optionLoop, optionElement, readOption, hopt, dropdownOptions]

/-- C3: in every state reached from start-up through handler invocations with offsets
below `optionCount`, `optionCount` is 2, the options are "english", "tamil", and the
option loop declares exactly two option elements, index 0 labelled "english" then index
1 labelled "tamil"; the layout of a frame contains these two elements when the
dropdown is open and no option element when it is closed. -/
theorem options_presented_in_order (env : Env) (res : Resources) (t : List Call)
    (cbs : List Callback) (f : Frame)
    (hinit : init env = Except.ok (res, t))
    (hoffsets : ∀ cb ∈ cbs, (cb.elementId.offset : Int) < dropdownState.optionCount) :
    ∃ w, runCallbacks cbs { dropdown := dropdownState, trace := t } = some w ∧
      w.dropdown.optionCount = 2 ∧
      w.dropdown.options = ["english", "tamil"] ∧
      optionLoop w.dropdown f.hovered (loopIndices w.dropdown)
        = some [Call.CLAY_open "DropdownOption" 0 (bgColor w.dropdown f.hovered 0),
                Call.Clay_OnHover Handler.HandleOptionClick,
                Call.CLAY_TEXT "english" ⟨60, 60, 60, 255⟩,
                Call.CLAY_close,
                Call.CLAY_open "DropdownOption" 1 (bgColor w.dropdown f.hovered 1),
                Call.Clay_OnHover Handler.HandleOptionClick,
                Call.CLAY_TEXT "tamil" ⟨60, 60, 60, 255⟩,
                Call.CLAY_close] ∧
      ∃ layout, buildLayout f w.dropdown = some layout ∧
        layout.filterMap Call.optionIndex = (if w.dropdown.isOpen then [0, 1] else []) ∧
        layout.filterMap Call.text
          = (if w.dropdown.isOpen then [f.greeting, "Select language!!!", "english", "tamil"]
             else [f.greeting, "Select language!!!"]) := by
  obtain ⟨w, hrun, hopt, hcount, -, -, -⟩ :=
    Inv_runCallbacks cbs _ (Inv_start env res t hinit) hoffsets
  have hloop := optionLoop_of_Inv w.dropdown f.hovered hopt hcount
  refine ⟨w, hrun, hcount, hopt, hloop, ?_⟩
  cases hopen : w.dropdown.isOpen
  · exact ⟨_, by simp only [buildLayout, hopen]; rfl,
      by simp [Call.optionIndex], by simp [Call.text]⟩
  · exact ⟨_, by simp only [buildLayout, hopen, hloop]; rfl,
      by simp [Call.optionIndex], by simp [Call.text]⟩

/-- C3, at a concrete input: the dropdown has just been opened. -/
theorem options_presented_in_order_witness :
    ∃ res t, init ⟨true, true, some 1, some 2, some 3, some 4, true⟩ = Except.ok (res, t) ∧
      ∃ w,
        runCallbacks
          [⟨Handler.HandleDropdownClick, ⟨5, 0, 5, "DropdownButton"⟩,
             ⟨Clay_PointerDataInteractionState.PRESSED_THIS_FRAME⟩⟩]
          { dropdown := dropdownState, trace := t } = some w ∧
        w.dropdown.optionCount = 2 ∧
        w.dropdown.options = ["english", "tamil"] ∧
        optionLoop w.dropdown (fun _ => false) (loopIndices w.dropdown)
          = some [Call.CLAY_open "DropdownOption" 0 (bgColor w.dropdown (fun _ => false) 0),
                  Call.Clay_OnHover Handler.HandleOptionClick,
                  Call.CLAY_TEXT "english" ⟨60, 60, 60, 255⟩,
                  Call.CLAY_close,
                  Call.CLAY_open "DropdownOption" 1 (bgColor w.dropdown (fun _ => false) 1),
                  Call.Clay_OnHover Handler.HandleOptionClick,
                  Call.CLAY_TEXT "tamil" ⟨60, 60, 60, 255⟩,
                  Call.CLAY_close] ∧
        ∃ layout,
          buildLayout ⟨[], "Hello", fun _ => false, []⟩ w.dropdown = some layout ∧
          layout.filterMap Call.optionIndex = (if w.dropdown.isOpen then [0, 1] else []) ∧
          layout.filterMap Call.text
            = (if w.dropdown.isOpen then ["Hello", "Select language!!!", "english", "tamil"]
               else ["Hello", "Select language!!!"]) :=
  ⟨_, _, rfl,
   options_presented_in_order ⟨true, true, some 1, some 2, some 3, some 4, true⟩ _ _ _
     ⟨[], "Hello", fun _ => false, []⟩ rfl (by simp [dropdownState])⟩

/-! ## Bounds of the option reads -/

theorem HandleOptionClick_isSome_iff (w : World) (elementId : Clay_ElementId) :
    (HandleOptionClick elementId ⟨Clay_PointerDataInteractionState.PRESSED_THIS_FRAME⟩
        w).isSome
      ↔ (readOption w.dropdown.options (intOfUInt32 elementId.offset)).isSome := by
  unfold HandleOptionClick
  simp only [if_true]
  cases readOption w.dropdown.options (intOfUInt32 elementId.offset) <;> simp

theorem readOption_isSome_iff (l : List String) (i : Int) :
    (readOption l i).isSome ↔ 0 ≤ i ∧ i < (l.length : Int) := by
  unfold readOption
  by_cases h : 0 ≤ i
  · simp only [h, if_true, true_and]
    by_cases hlt : i.toNat < l.length
    · simp only [List.getElem?_eq_getElem hlt, Option.isSome_some, true_iff]
      omega
    · have hnone : l[i.toNat]? = none := List.getElem?_eq_none (by omega)
      simp only [hnone, Option.isSome_none, Bool.false_eq_true, false_iff]
      omega
  · simp [h]

theorem intOfUInt32_neg (n : Nat) (hu32 : n < 4294967296) (h : ¬ (n : Int) ≤ INT_MAX) :
    intOfUInt32 n < 0 := by
  have h2 : n % 4294967296 = n := Nat.mod_eq_of_lt hu32
  unfold intOfUInt32
  rw [h2, if_neg h]
  omega

/-- C10: for a dropdown state whose `optionCount` is the length of its option array,
the read `options[selectedIndex]` made by a pressed option click stays inside the array
exactly when the offset is below `optionCount`; the handler checks nothing itself, so
offset 2 on the initial state of `main` reads outside the array; and in every state
reached from start-up through handler invocations with offsets below `optionCount`,
each index the option loop uses lies in `0 .. optionCount - 1`, with `optionCount` and
the length of the array both 2, and every read of the loop is inside the array. -/
theorem option_reads_in_bounds (s : DropdownState) (t0 : List Call)
    (elementId : Clay_ElementId)
    (env : Env) (res : Resources) (t : List Call) (cbs : List Callback)
    (hovered : Nat → Bool)
    (hlen : s.optionCount = (s.options.length : Int))
    (hint : s.optionCount ≤ INT_MAX)
    (hu32 : elementId.offset < 4294967296)
    (hinit : init env = Except.ok (res, t))
    (hoffsets : ∀ cb ∈ cbs, (cb.elementId.offset : Int) < dropdownState.optionCount) :
    ((HandleOptionClick elementId ⟨Clay_PointerDataInteractionState.PRESSED_THIS_FRAME⟩
        { dropdown := s, trace := t0 }).isSome
      ↔ (elementId.offset : Int) < s.optionCount) ∧
    (dropdownState.optionCount ≤ ((2 : Nat) : Int) ∧
      HandleOptionClick ⟨elementId.id, 2, elementId.baseId, elementId.stringId⟩
        ⟨Clay_PointerDataInteractionState.PRESSED_THIS_FRAME⟩
        { dropdown := dropdownState, trace := t } = none) ∧
    ∃ w, runCallbacks cbs { dropdown := dropdownState, trace := t } = some w ∧
      (∀ i ∈ loopIndices w.dropdown, 0 ≤ (i : Int) ∧ (i : Int) < w.dropdown.optionCount) ∧
      w.dropdown.optionCount = 2 ∧
      w.dropdown.options.length = 2 ∧
      (∀ i ∈ loopIndices w.dropdown, (readOption w.dropdown.options (i : Int)).isSome) ∧
      (optionLoop w.dropdown hovered (loopIndices w.dropdown)).isSome := by
  refine ⟨?_, ⟨by decide, ?_⟩, ?_⟩
  · rw [HandleOptionClick_isSome_iff, readOption_isSome_iff]
    by_cases hle : (elementId.offset : Int) ≤ INT_MAX
    · rw [intOfUInt32_of_le _ hle]
      simp only [← hlen]
      omega
    · have hneg := intOfUInt32_neg _ hu32 hle
      simp only [← hlen]
      omega
  · simp [HandleOptionClick, intOfUInt32, INT_MAX, readOption, dropdownState, dropdownOptions]
  · obtain ⟨w, hrun, hopt, hcount, -, -, -⟩ :=
      Inv_runCallbacks cbs _ (Inv_start env res t hinit) hoffsets
    have hidx := loopIndices_of_count_two w.dropdown hcount
    refine ⟨w, hrun, ?_, hcount, by simp [hopt, dropdownOptions], ?_, ?_⟩
    · intro i hi
      rw [hidx] at hi
      simp at hi
      omega
    · intro i hi
      rw [hidx] at hi
      simp at hi
      rcases hi with rfl | rfl <;> simp [readOption, hopt, dropdownOptions]
    · simp [optionLoop_of_Inv w.dropdown hovered hopt hcount]

/-- C10, at a concrete input: offset 5 on the initial dropdown, and the option loop
after the dropdown was opened. -/
theorem option_reads_in_bounds_witness :
    dropdownState.optionCount = (dropdownState.options.length : Int) ∧
    dropdownState.optionCount ≤ INT_MAX ∧
    ∃ res t, init ⟨true, true, some 1, some 2, some 3, some 4, true⟩ = Except.ok (res, t) ∧
      ((HandleOptionClick ⟨7, 5, 6, "DropdownOption"⟩
          ⟨Clay_PointerDataInteractionState.PRESSED_THIS_FRAME⟩
          { dropdown := dropdownState, trace := [] }).isSome
        ↔ ((5 : Nat) : Int) < dropdownState.optionCount) ∧
      (dropdownState.optionCount ≤ ((2 : Nat) : Int) ∧
        HandleOptionClick ⟨7, 2, 6, "DropdownOption"⟩
          ⟨Clay_PointerDataInteractionState.PRESSED_THIS_FRAME⟩
          { dropdown := dropdownState, trace := t } = none) ∧
      ∃ w,
        runCallbacks
          [⟨Handler.HandleDropdownClick, ⟨5, 0, 5, "DropdownButton"⟩,
             ⟨Clay_PointerDataInteractionState.PRESSED_THIS_FRAME⟩⟩]
          { dropdown := dropdownState, trace := t } = some w ∧
        (∀ i ∈ loopIndices w.dropdown, 0 ≤ (i : Int) ∧ (i : Int) < w.dropdown.optionCount) ∧
        w.dropdown.optionCount = 2 ∧
        w.dropdown.options.length = 2 ∧
        (∀ i ∈ loopIndices w.dropdown, (readOption w.dropdown.options (i : Int)).isSome) ∧
        (optionLoop w.dropdown (fun _ => true) (loopIndices w.dropdown)).isSome :=
  ⟨by decide, by decide, _, _, rfl,
   option_reads_in_bounds dropdownState [] ⟨7, 5, 6, "DropdownOption"⟩
     ⟨true, true, some 1, some 2, some 3, some 4, true⟩ _ _ _ (fun _ => true)
     (by decide) (by decide) (by decide) rfl (by simp [dropdownState])⟩

/-! ## One pass of the frame loop -/

theorem HandleOptionClick_uniform (d : DropdownState) (elementId : Clay_ElementId)
    (pointerData : Clay_PointerData)
    (hopt : d.options = dropdownOptions) (hcount : d.optionCount = 2)
    (hoffset : (elementId.offset : Int) < 2) :
    ∃ d1 dcb, (∀ t, HandleOptionClick elementId pointerData { dropdown := d, trace := t }
        = some { dropdown := d1, trace := t ++ dcb }) ∧
      d1.options = dropdownOptions ∧ d1.optionCount = 2 ∧
      ∀ c ∈ dcb, Call.isSetLang c = true := by
  obtain ⟨st⟩ := pointerData
  by_cases hst : st = Clay_PointerDataInteractionState.PRESSED_THIS_FRAME
  · subst hst
    have hcases : elementId.offset = 0 ∨ elementId.offset = 1 := by omega
    have hmax : (elementId.offset : Int) ≤ INT_MAX := by
      unfold INT_MAX
      omega
    have hname : ∃ name, d.options[elementId.offset]? = some name := by
      rcases hcases with h0 | h1
      · exact ⟨"english", by simp [h0, hopt, dropdownOptions]⟩
      · exact ⟨"tamil", by simp [h1, hopt, dropdownOptions]⟩
    obtain ⟨name, hget⟩ := hname
    refine ⟨{ options := d.options, optionCount := d.optionCount,
              selectedIndex := (elementId.offset : Int), isOpen := false },
      [Call.set_lang_i19c name],
      fun t => HandleOptionClick_in_bounds ⟨d, t⟩ elementId name hmax hget, hopt, hcount, ?_⟩
    intro c hc
    rw [List.mem_singleton] at hc
    rw [hc]
    rfl
  · exact ⟨d, [], fun t => by simp [HandleOptionClick, hst], hopt, hcount,
      fun c hc => absurd hc (List.not_mem_nil c)⟩

theorem invoke_uniform (cb : Callback) (d : DropdownState)
    (hopt : d.options = dropdownOptions) (hcount : d.optionCount = 2)
    (hoffset : (cb.elementId.offset : Int) < 2) :
    ∃ d1 dcb, (∀ t, invoke cb { dropdown := d, trace := t }
        = some { dropdown := d1, trace := t ++ dcb }) ∧
      d1.options = dropdownOptions ∧ d1.optionCount = 2 ∧
      ∀ c ∈ dcb, Call.isSetLang c = true := by
  unfold invoke
  cases cb.handler with
  | HandleDropdownClick =>
    by_cases hst : cb.pointerData.state = Clay_PointerDataInteractionState.PRESSED_THIS_FRAME
    · exact ⟨{ d with isOpen := !d.isOpen }, [],
        fun t => by simp [HandleDropdownClick, hst], hopt, hcount,
        fun c hc => absurd hc (List.not_mem_nil c)⟩
    · exact ⟨d, [], fun t => by simp [HandleDropdownClick, hst], hopt, hcount,
        fun c hc => absurd hc (List.not_mem_nil c)⟩
  | HandleOptionClick => exact HandleOptionClick_uniform d _ _ hopt hcount hoffset

theorem runCallbacks_uniform (cbs : List Callback) (d : DropdownState)
    (hopt : d.options = dropdownOptions) (hcount : d.optionCount = 2)
    (hoffsets : ∀ cb ∈ cbs, (cb.elementId.offset : Int) < 2) :
    ∃ d1 dcb, (∀ t, runCallbacks cbs { dropdown := d, trace := t }
        = some { dropdown := d1, trace := t ++ dcb }) ∧
      d1.options = dropdownOptions ∧ d1.optionCount = 2 ∧
      ∀ c ∈ dcb, Call.isSetLang c = true := by
  induction cbs generalizing d with
  | nil => exact ⟨d, [], fun t => by simp [runCallbacks], hopt, hcount,
      fun c hc => absurd hc (List.not_mem_nil c)⟩
  | cons cb cbs ih =>
    obtain ⟨d1, dcb1, h1, hopt1, hcount1, hall1⟩ :=
      invoke_uniform cb d hopt hcount (hoffsets cb (List.mem_cons_self _ _))
    obtain ⟨d2, dcb2, h2, hopt2, hcount2, hall2⟩ :=
      ih d1 hopt1 hcount1 (fun c hc => hoffsets c (List.mem_cons_of_mem _ hc))
    refine ⟨d2, dcb1 ++ dcb2, fun t => ?_, hopt2, hcount2, ?_⟩
    · simp only [runCallbacks, h1 t, h2 (t ++ dcb1), List.append_assoc]
    · intro c hc
      rcases List.mem_append.mp hc with hc | hc
      · exact hall1 c hc
      · exact hall2 c hc

theorem runCallbacks_append (a b : List Callback) (w : World) :
    runCallbacks (a ++ b) w
      = match runCallbacks a w with
        | none => none
        | some w1 => runCallbacks b w1 := by
  induction a generalizing w with
  | nil => simp [runCallbacks]
  | cons cb a ih =>
    simp only [List.cons_append, runCallbacks]
    cases invoke cb w with
    | none => rfl
    | some w1 => exact ih w1

theorem filter_isSetLang_of_all (l : List Call) (h : ∀ c ∈ l, Call.isSetLang c = true) :
    l.filter Call.isSetLang = l ∧ l.filter (fun c => !Call.isSetLang c) = [] := by
  constructor
  · exact List.filter_eq_self.mpr h
  · rw [List.filter_eq_nil_iff]
    intro c hc
    simp [h c hc]

theorem drainEvents_spec (events : List Polled) (running : Bool) (d : DropdownState)
    (hopt : d.options = dropdownOptions) (hcount : d.optionCount = 2)
    (hoffsets : ∀ p ∈ events, ∀ cb ∈ p.hover, (cb.elementId.offset : Int) < 2) :
    ∃ d1 drained dcb,
      (∀ t, drainEvents events running { dropdown := d, trace := t }
        = some (running && events.all (fun p => decide (p.e ≠ SDL_Event.QUIT)),
            { dropdown := d1, trace := t ++ drained })) ∧
      d1.options = dropdownOptions ∧ d1.optionCount = 2 ∧
      (∀ t, runCallbacks (firedCallbacks events) { dropdown := d, trace := t }
        = some { dropdown := d1, trace := t ++ dcb }) ∧
      drained.filter Call.isSetLang = dcb ∧
      drained.filter (fun c => !Call.isSetLang c) = events.filterMap (fun p => p.e.answer) := by
  induction events generalizing running d with
  | nil =>
    exact ⟨d, [], [], fun t => by simp [drainEvents], hopt, hcount,
      fun t => by simp [firedCallbacks, runCallbacks], rfl, rfl⟩
  | cons p ps ih =>
    have hps : ∀ q ∈ ps, ∀ cb ∈ q.hover, (cb.elementId.offset : Int) < 2 :=
      fun q hq => hoffsets q (List.mem_cons_of_mem _ hq)
    have hp : ∀ cb ∈ p.hover, (cb.elementId.offset : Int) < 2 :=
      hoffsets p (List.mem_cons_self _ _)
    -- an event answered with `Clay_SetPointerState down`
    have hpointer : ∀ (down : Bool), p.e ≠ SDL_Event.QUIT → p.e.pointerDown = some down →
        p.e.answer = some (Call.Clay_SetPointerState down) →
        ∃ d1 drained dcb,
          (∀ t, (match Clay_SetPointerState down p.hover { dropdown := d, trace := t } with
              | none => none
              | some w1 => drainEvents ps running w1)
            = some (running && (p :: ps).all (fun p => decide (p.e ≠ SDL_Event.QUIT)),
                { dropdown := d1, trace := t ++ drained })) ∧
          d1.options = dropdownOptions ∧ d1.optionCount = 2 ∧
          (∀ t, runCallbacks (firedCallbacks (p :: ps)) { dropdown := d, trace := t }
            = some { dropdown := d1, trace := t ++ dcb }) ∧
          drained.filter Call.isSetLang = dcb ∧
          drained.filter (fun c => !Call.isSetLang c)
            = (p :: ps).filterMap (fun p => p.e.answer) := by
      intro down hq hdown hanswer
      obtain ⟨d1, dcb1, h1, hopt1, hcount1, hall1⟩ := runCallbacks_uniform p.hover d hopt hcount hp
      obtain ⟨d2, drained2, dcb2, h2, hopt2, hcount2, hrun2, hset2, hans2⟩ :=
        ih running d1 hopt1 hcount1 hps
      obtain ⟨hf1, hf2⟩ := filter_isSetLang_of_all dcb1 hall1
      refine ⟨d2, Call.Clay_SetPointerState down :: (dcb1 ++ drained2), dcb1 ++ dcb2,
        fun t => ?_, hopt2, hcount2, fun t => ?_, ?_, ?_⟩
      · simp [Clay_SetPointerState, h1, h2, hq]
      · simp only [firedCallbacks, List.flatMap_cons, hdown, Option.isSome_some, if_true]
        rw [runCallbacks_append, h1 t]
        simpa [firedCallbacks, List.append_assoc] using hrun2 (t ++ dcb1)
      · have hhead : Call.isSetLang (Call.Clay_SetPointerState down) = false := rfl
        simp only [List.filter_cons, hhead, Bool.false_eq_true, if_false, List.filter_append,
          hf1, hset2]
      · have hhead : (!Call.isSetLang (Call.Clay_SetPointerState down)) = true := rfl
        simp only [List.filter_cons, hhead, if_true, List.filter_append, hf2, List.nil_append,
          hans2, List.filterMap_cons, hanswer]
    -- an event to which `main` makes no call
    have hskip : p.e ≠ SDL_Event.QUIT → p.e.pointerDown = none → p.e.answer = none →
        ∃ d1 drained dcb,
          (∀ t, drainEvents ps running { dropdown := d, trace := t }
            = some (running && (p :: ps).all (fun p => decide (p.e ≠ SDL_Event.QUIT)),
                { dropdown := d1, trace := t ++ drained })) ∧
          d1.options = dropdownOptions ∧ d1.optionCount = 2 ∧
          (∀ t, runCallbacks (firedCallbacks (p :: ps)) { dropdown := d, trace := t }
            = some { dropdown := d1, trace := t ++ dcb }) ∧
          drained.filter Call.isSetLang = dcb ∧
          drained.filter (fun c => !Call.isSetLang c)
            = (p :: ps).filterMap (fun p => p.e.answer) := by
      intro hq hdown hanswer
      obtain ⟨d2, drained2, dcb2, h2, hopt2, hcount2, hrun2, hset2, hans2⟩ :=
        ih running d hopt hcount hps
      refine ⟨d2, drained2, dcb2, fun t => by simp [h2, hq], hopt2, hcount2, fun t => ?_,
        hset2, ?_⟩
      · simpa [firedCallbacks, hdown] using hrun2 t
      · simpa [hanswer] using hans2
    unfold drainEvents
    cases hpe : p.e with
    | QUIT =>
      obtain ⟨d2, drained2, dcb2, h2, hopt2, hcount2, hrun2, hset2, hans2⟩ :=
        ih false d hopt hcount hps
      refine ⟨d2, drained2, dcb2, fun t => by simp [h2, hpe], hopt2, hcount2, fun t => ?_,
        hset2, ?_⟩
      · simpa [firedCallbacks, hpe, SDL_Event.pointerDown] using hrun2 t
      · simpa [hpe, SDL_Event.answer, SDL_Event.pointerDown] using hans2
    | WINDOW_RESIZED data1 data2 =>
      obtain ⟨d2, drained2, dcb2, h2, hopt2, hcount2, hrun2, hset2, hans2⟩ :=
        ih running d hopt hcount hps
      refine ⟨d2, Call.Clay_SetLayoutDimensions data1 data2 :: drained2, dcb2,
        fun t => by simp [h2, hpe], hopt2, hcount2, fun t => ?_, ?_, ?_⟩
      · simpa [firedCallbacks, hpe, SDL_Event.pointerDown] using hrun2 t
      · have hhead : Call.isSetLang (Call.Clay_SetLayoutDimensions data1 data2) = false := rfl
        simp only [List.filter_cons, hhead, Bool.false_eq_true, if_false, hset2]
      · have hhead : (!Call.isSetLang (Call.Clay_SetLayoutDimensions data1 data2)) = true := rfl
        simp only [List.filter_cons, hhead, if_true, hans2, List.filterMap_cons, hpe,
          SDL_Event.answer]
    | MOUSE_MOTION lmask =>
      simp only [hpe] at hpointer
      exact hpointer lmask (by simp) rfl rfl
    | MOUSE_BUTTON_DOWN button =>
      simp only [hpe] at hpointer hskip
      by_cases hb : button = SDL_BUTTON_LEFT
      · simp only [hb, if_true]
        exact hpointer true (by simp) (by simp [SDL_Event.pointerDown, hb])
          (by simp [SDL_Event.answer, SDL_Event.pointerDown, hb])
      · simp only [hb, if_false]
        exact hskip (by simp) (by simp [SDL_Event.pointerDown, hb])
          (by simp [SDL_Event.answer, SDL_Event.pointerDown, hb])
    | MOUSE_BUTTON_UP button =>
      simp only [hpe] at hpointer hskip
      by_cases hb : button = SDL_BUTTON_LEFT
      · simp only [hb, if_true]
        exact hpointer false (by simp) (by simp [SDL_Event.pointerDown, hb])
          (by simp [SDL_Event.answer, SDL_Event.pointerDown, hb])
      · simp only [hb, if_false]
        exact hskip (by simp) (by simp [SDL_Event.pointerDown, hb])
          (by simp [SDL_Event.answer, SDL_Event.pointerDown, hb])
    | OTHER =>
      simp only [hpe] at hskip
      exact hskip (by simp) rfl rfl

theorem render_no_lookup (font : Option Handle) (cmds : List RenderCommand) :
    (render font cmds).filterMap Call.lookupKey = [] ∧ setLangArgs (render font cmds) = [] := by
  have hcmd : ∀ cmd : RenderCommand,
      (renderCommand font cmd).filterMap Call.lookupKey = [] ∧
      (renderCommand font cmd).filterMap Call.setLangArg = [] := by
    intro cmd
    cases cmd <;> simp [renderCommand, Call.lookupKey, Call.setLangArg]
  have hall : ((cmds.map (renderCommand font)).flatten).filterMap Call.lookupKey = [] ∧
      ((cmds.map (renderCommand font)).flatten).filterMap Call.setLangArg = [] := by
    induction cmds with
    | nil => simp
    | cons cmd cmds ih =>
      simp only [List.map_cons, List.flatten_cons, List.filterMap_append, (hcmd cmd).1,
        (hcmd cmd).2, ih.1, ih.2, List.append_nil, and_self]
  unfold render setLangArgs
  simp only [List.filterMap_append, hall.1, hall.2]
  simp [Call.lookupKey, Call.setLangArg]

theorem lookupsUnder_eq_nil (cur : Option String) (l : List Call)
    (h : l.filterMap Call.lookupKey = []) : lookupsUnder cur l = [] := by
  induction l generalizing cur with
  | nil => rfl
  | cons c l ih =>
    have hl : l.filterMap Call.lookupKey = [] := by
      rw [List.filterMap_eq_nil_iff] at h ⊢
      exact fun a ha => h a (List.mem_cons_of_mem _ ha)
    have hc : Call.lookupKey c = none := by
      rw [List.filterMap_eq_nil_iff] at h
      exact h c (List.mem_cons_self _ _)
    cases c <;> simp [lookupsUnder, ih _ hl, Call.lookupKey] at hc ⊢

theorem lookupsUnder_append_no_lookup (t d rest : List Call)
    (h : d.filterMap Call.lookupKey = []) :
    lookupsUnder (lastLang t) (d ++ rest) = lookupsUnder (lastLang (t ++ d)) rest := by
  induction d generalizing t with
  | nil => simp
  | cons c d ih =>
    have hd : d.filterMap Call.lookupKey = [] := by
      rw [List.filterMap_eq_nil_iff] at h ⊢
      exact fun a ha => h a (List.mem_cons_of_mem _ ha)
    have hc : Call.lookupKey c = none := by
      rw [List.filterMap_eq_nil_iff] at h
      exact h c (List.mem_cons_self _ _)
    have hstep : lookupsUnder (lastLang t) (c :: (d ++ rest))
        = lookupsUnder (lastLang (t ++ [c])) (d ++ rest) := by
      cases c <;>
        simp [lookupsUnder, Call.lookupKey, lastLang, setLangArgs, Call.setLangArg] at hc ⊢
    have hih := ih (t ++ [c]) hd
    rw [List.cons_append, hstep, hih]
    simp

theorem buildLayout_of_Shape (f : Frame) (s : DropdownState)
    (hopt : s.options = dropdownOptions) (hcount : s.optionCount = 2) :
    ∃ layout, buildLayout f s = some layout ∧
      layout.filterMap Call.lookupKey = ["GREETING"] ∧
      setLangArgs layout = [] ∧
      (∀ (cur : Option String) (rest : List Call),
        lookupsUnder cur (layout ++ rest) = ("GREETING", cur) :: lookupsUnder cur rest) ∧
      layout.head? = some Call.Clay_BeginLayout ∧
      layout.getLast? = some Call.Clay_EndLayout := by
  have hloop := optionLoop_of_Inv s f.hovered hopt hcount
  cases hopen : s.isOpen
  · refine ⟨_, by simp only [buildLayout, hopen]; rfl, ?_, ?_, ?_, ?_, ?_⟩
    · simp [Call.lookupKey]
    · simp [setLangArgs, Call.setLangArg]
    · intro cur rest
      simp [lookupsUnder]
    · simp
    · simp
  · refine ⟨_, by simp only [buildLayout, hopen, hloop]; rfl, ?_, ?_, ?_, ?_, ?_⟩
    · simp [Call.lookupKey]
    · simp [setLangArgs, Call.setLangArg]
    · intro cur rest
      simp [lookupsUnder]
    · simp
    · simp

theorem drained_no_lookup (events : List Polled) (drained : List Call)
    (h : drained.filter (fun c => !Call.isSetLang c) = events.filterMap (fun p => p.e.answer)) :
    drained.filterMap Call.lookupKey = [] := by
  rw [List.filterMap_eq_nil_iff]
  intro c hc
  by_cases hs : Call.isSetLang c = true
  · cases c <;> simp [Call.isSetLang, Call.setLangArg] at hs
    rfl
  · have hmem : c ∈ drained.filter (fun c => !Call.isSetLang c) := by
      rw [List.mem_filter]
      exact ⟨hc, by simpa using hs⟩
    rw [h, List.mem_filterMap] at hmem
    obtain ⟨p, -, hp⟩ := hmem
    cases hpe : p.e with
    | QUIT => simp [hpe, SDL_Event.answer, SDL_Event.pointerDown] at hp
    | WINDOW_RESIZED data1 data2 =>
      simp [hpe, SDL_Event.answer] at hp
      rw [← hp]
      rfl
    | MOUSE_MOTION lmask =>
      simp [hpe, SDL_Event.answer, SDL_Event.pointerDown] at hp
      rw [← hp]
      rfl
    | MOUSE_BUTTON_DOWN button =>
      by_cases hb : button = SDL_BUTTON_LEFT
      · simp [hpe, SDL_Event.answer, SDL_Event.pointerDown, hb] at hp
        rw [← hp]
        rfl
      · simp [hpe, SDL_Event.answer, SDL_Event.pointerDown, hb] at hp
    | MOUSE_BUTTON_UP button =>
      by_cases hb : button = SDL_BUTTON_LEFT
      · simp [hpe, SDL_Event.answer, SDL_Event.pointerDown, hb] at hp
        rw [← hp]
        rfl
      · simp [hpe, SDL_Event.answer, SDL_Event.pointerDown, hb] at hp
    | OTHER => simp [hpe, SDL_Event.answer, SDL_Event.pointerDown] at hp

theorem setLangArgs_filter (l : List Call) :
    setLangArgs (l.filter Call.isSetLang) = setLangArgs l := by
  induction l with
  | nil => rfl
  | cons c l ih =>
    unfold setLangArgs at ih ⊢
    cases hs : Call.isSetLang c
    · have hnone : Call.setLangArg c = none := by
        unfold Call.isSetLang at hs
        cases hc : Call.setLangArg c with
        | none => rfl
        | some name => simp [hc] at hs
      simp only [List.filter_cons, hs, Bool.false_eq_true, if_false, List.filterMap_cons,
        hnone, ih]
    · simp only [List.filter_cons, hs, if_true, List.filterMap_cons, ih]

theorem render_calls (font : Option Handle) (cmds : List RenderCommand) :
    render font cmds
        = [Call.SDL_SetRenderDrawColor ⟨255, 255, 255, 255⟩, Call.SDL_RenderClear]
          ++ (cmds.map (renderCommand font)).flatten ++ [Call.SDL_RenderPresent] ∧
    (∀ color, renderCommand font (RenderCommand.RECTANGLE color)
        = [Call.SDL_SetRenderDrawColor color, Call.SDL_RenderFillRect]) ∧
    (∀ color, renderCommand font (RenderCommand.BORDER color)
        = [Call.SDL_SetRenderDrawColor color, Call.SDL_RenderRect]) ∧
    (∀ color text, renderCommand font (RenderCommand.TEXT color text)
        = [Call.RenderText font text color]) ∧
    renderCommand font RenderCommand.null = [] ∧
    renderCommand font RenderCommand.OTHER = [] :=
  ⟨rfl, fun _ => rfl, fun _ => rfl, fun _ _ => rfl, rfl, rfl⟩

/-- C6: one pass of the loop of `main`, from a state with the option array of `main` and
hover callbacks with offsets below `optionCount`, runs in three steps.  (1) It drains
every pending event: `running` ends false exactly when a quit event was pending, each
event is answered with its Clay call, in order, whatever comes before it, the hover
callbacks fired by the answered pointer events are all run, in order, and besides the
Clay calls the drain makes exactly the `set_lang_i19c` calls of those callbacks and no
lookup.  (2) It builds the layout, from `Clay_BeginLayout` to `Clay_EndLayout`, on the
dropdown state the drain left, with one lookup, of "GREETING", and no `set_lang_i19c`.
(3) It renders: clear, the calls of every render command in order, present, with no
lookup and no `set_lang_i19c`.  So the single lookup of the pass is made under the
language last set once all callbacks of the drain have run. -/
theorem frame_drains_then_looks_up (font : Option Handle) (f : Frame) (w : World)
    (hopt : w.dropdown.options = dropdownOptions)
    (hcount : w.dropdown.optionCount = 2)
    (hoffsets : ∀ p ∈ f.events, ∀ cb ∈ p.hover,
      (cb.elementId.offset : Int) < dropdownState.optionCount) :
    ∃ wd drained wf layout,
      drainEvents f.events true w
        = some (f.events.all (fun p => decide (p.e ≠ SDL_Event.QUIT)), wd) ∧
      wd.trace = w.trace ++ drained ∧
      drained.filter (fun c => !Call.isSetLang c) = f.events.filterMap (fun p => p.e.answer) ∧
      runCallbacks (firedCallbacks f.events) w = some wf ∧
      wd.dropdown = wf.dropdown ∧
      wf.trace = w.trace ++ drained.filter Call.isSetLang ∧
      drained.filterMap Call.lookupKey = [] ∧
      buildLayout f wd.dropdown = some layout ∧
      layout.head? = some Call.Clay_BeginLayout ∧
      layout.getLast? = some Call.Clay_EndLayout ∧
      layout.filterMap Call.lookupKey = ["GREETING"] ∧
      setLangArgs layout = [] ∧
      render font f.renderCommands
        = [Call.SDL_SetRenderDrawColor ⟨255, 255, 255, 255⟩, Call.SDL_RenderClear]
          ++ (f.renderCommands.map (renderCommand font)).flatten
          ++ [Call.SDL_RenderPresent] ∧
      (∀ color, renderCommand font (RenderCommand.RECTANGLE color)
        = [Call.SDL_SetRenderDrawColor color, Call.SDL_RenderFillRect]) ∧
      (∀ color, renderCommand font (RenderCommand.BORDER color)
        = [Call.SDL_SetRenderDrawColor color, Call.SDL_RenderRect]) ∧
      (∀ color text, renderCommand font (RenderCommand.TEXT color text)
        = [Call.RenderText font text color]) ∧
      renderCommand font RenderCommand.null = [] ∧
      renderCommand font RenderCommand.OTHER = [] ∧
      (render font f.renderCommands).filterMap Call.lookupKey = [] ∧
      setLangArgs (render font f.renderCommands) = [] ∧
      frame font f w
        = some (f.events.all (fun p => decide (p.e ≠ SDL_Event.QUIT)),
            { dropdown := wd.dropdown,
              trace := w.trace ++ drained ++ layout ++ render font f.renderCommands }) ∧
      lookupsUnder (lastLang w.trace) (drained ++ layout ++ render font f.renderCommands)
        = [("GREETING", lastLang wf.trace)] := by
  obtain ⟨wdrop, wtrace⟩ := w
  simp only at hopt hcount
  obtain ⟨d1, drained, dcb, hdrain, hopt1, hcount1, hrun, hset, hans⟩ :=
    drainEvents_spec f.events true wdrop hopt hcount hoffsets
  obtain ⟨layout, hlayout, hkeys, hnoset, hunder, hhead, hlast⟩ :=
    buildLayout_of_Shape f d1 hopt1 hcount1
  obtain ⟨hrkeys, hrset⟩ := render_no_lookup font f.renderCommands
  obtain ⟨hr1, hr2, hr3, hr4, hr5, hr6⟩ := render_calls font f.renderCommands
  have hnolookup := drained_no_lookup f.events drained hans
  refine ⟨{ dropdown := d1, trace := wtrace ++ drained },
    drained, { dropdown := d1, trace := wtrace ++ dcb }, layout,
    ?_, rfl, hans, hrun wtrace, rfl, ?_, hnolookup, hlayout, hhead, hlast, hkeys, hnoset,
    hr1, hr2, hr3, hr4, hr5, hr6, hrkeys, hrset, ?_, ?_⟩
  · simpa using hdrain wtrace
  · simp only [hset]
  · simp [frame, hdrain wtrace, hlayout]
  · have hlang : lastLang (wtrace ++ drained) = lastLang (wtrace ++ dcb) := by
      unfold lastLang
      rw [setLangArgs_append, setLangArgs_append, ← hset, setLangArgs_filter]
    rw [List.append_assoc, lookupsUnder_append_no_lookup _ _ _ hnolookup, hunder,
      lookupsUnder_eq_nil _ _ hrkeys, hlang]

/-- C6, at a concrete input: after a successful start-up, an idle pass and a pass that
opens the dropdown, the pass in which "tamil" is clicked.  The drain answers its three
events with two `Clay_SetPointerState` calls and one `Clay_SetLayoutDimensions` call and
calls `set_lang_i19c("tamil")`; the "GREETING" lookup of the same pass is made under
"tamil", the language before the pass being "english". -/
theorem frame_drains_then_looks_up_witness :
    ∃ res t w, init sampleEnv = Except.ok (res, t) ∧
      loopState res.font [idleFrame, openFrame] { dropdown := dropdownState, trace := t }
        = some w ∧
      w.dropdown = { options := dropdownOptions, optionCount := 2, selectedIndex := 0,
                     isOpen := true } ∧
      lastLang w.trace = some "english" ∧
      (∃ wd drained wf layout,
        drainEvents tamilFrame.events true w
          = some (tamilFrame.events.all (fun p => decide (p.e ≠ SDL_Event.QUIT)), wd) ∧
        wd.trace = w.trace ++ drained ∧
        drained.filter (fun c => !Call.isSetLang c)
          = tamilFrame.events.filterMap (fun p => p.e.answer) ∧
        runCallbacks (firedCallbacks tamilFrame.events) w = some wf ∧
        wd.dropdown = wf.dropdown ∧
        wf.trace = w.trace ++ drained.filter Call.isSetLang ∧
        drained.filterMap Call.lookupKey = [] ∧
        buildLayout tamilFrame wd.dropdown = some layout ∧
        layout.head? = some Call.Clay_BeginLayout ∧
        layout.getLast? = some Call.Clay_EndLayout ∧
        layout.filterMap Call.lookupKey = ["GREETING"] ∧
        setLangArgs layout = [] ∧
        render res.font tamilFrame.renderCommands
          = [Call.SDL_SetRenderDrawColor ⟨255, 255, 255, 255⟩, Call.SDL_RenderClear]
            ++ (tamilFrame.renderCommands.map (renderCommand res.font)).flatten
            ++ [Call.SDL_RenderPresent] ∧
        (∀ color, renderCommand res.font (RenderCommand.RECTANGLE color)
          = [Call.SDL_SetRenderDrawColor color, Call.SDL_RenderFillRect]) ∧
        (∀ color, renderCommand res.font (RenderCommand.BORDER color)
          = [Call.SDL_SetRenderDrawColor color, Call.SDL_RenderRect]) ∧
        (∀ color text, renderCommand res.font (RenderCommand.TEXT color text)
          = [Call.RenderText res.font text color]) ∧
        renderCommand res.font RenderCommand.null = [] ∧
        renderCommand res.font RenderCommand.OTHER = [] ∧
        (render res.font tamilFrame.renderCommands).filterMap Call.lookupKey = [] ∧
        setLangArgs (render res.font tamilFrame.renderCommands) = [] ∧
        frame res.font tamilFrame w
          = some (tamilFrame.events.all (fun p => decide (p.e ≠ SDL_Event.QUIT)),
              { dropdown := wd.dropdown,
                trace := w.trace ++ drained ++ layout
                  ++ render res.font tamilFrame.renderCommands }) ∧
        lookupsUnder (lastLang w.trace)
            (drained ++ layout ++ render res.font tamilFrame.renderCommands)
          = [("GREETING", lastLang wf.trace)]) ∧
      drainEvents tamilFrame.events true w
        = some (true,
            { dropdown := { options := dropdownOptions, optionCount := 2, selectedIndex := 1,
                            isOpen := false },
              trace := w.trace ++
                [Call.Clay_SetPointerState true, Call.Clay_SetPointerState true,
                 Call.set_lang_i19c "tamil", Call.Clay_SetLayoutDimensions 640 480] }) ∧
      runCallbacks (firedCallbacks tamilFrame.events) w
        = some { dropdown := { options := dropdownOptions, optionCount := 2,
                               selectedIndex := 1, isOpen := false },
                 trace := w.trace ++ [Call.set_lang_i19c "tamil"] } ∧
      (frame res.font tamilFrame w).map
          (fun r => (r.1, lookupsUnder (lastLang w.trace) (r.2.trace.drop w.trace.length)))
        = some (true, [("GREETING", some "tamil")]) ∧
      (frame res.font tamilFrame w).map (fun r => (r.2.trace.drop w.trace.length).getLast?)
        = some (some Call.SDL_RenderPresent) :=
  ⟨_, _, _, rfl, rfl, rfl, rfl,
   frame_drains_then_looks_up _ tamilFrame _ rfl rfl (by simp [tamilFrame, dropdownState]),
   rfl, rfl, rfl, rfl⟩

/-! ## Exit codes and cleanup -/

theorem init_failure (env : Env)
    (hfail : env.SDL_Init = false ∨ env.TTF_Init = false ∨ env.SDL_CreateWindow = none ∨
      env.SDL_CreateRenderer = none ∨ env.malloc = none ∨ env.Clay_Initialize = false) :
    ∃ tr, init env = Except.error (1, tr) ∧
      released tr = (acquired tr).reverse ∧ (acquired tr).Nodup := by
  obtain ⟨a, b, c, d, e, f, g⟩ := env
  simp only at hfail
  cases a
  · exact ⟨_, rfl, by simp [released, acquired, Call.releases, Call.acquires],
      by simp [acquired, Call.acquires]⟩
  cases b
  · exact ⟨_, rfl, by simp [released, acquired, Call.releases, Call.acquires],
      by simp [acquired, Call.acquires]⟩
  cases c
  · exact ⟨_, rfl, by simp [released, acquired, Call.releases, Call.acquires],
      by simp [acquired, Call.acquires]⟩
  cases d
  · exact ⟨_, rfl, by simp [released, acquired, Call.releases, Call.acquires],
      by simp [acquired, Call.acquires]⟩
  cases f
  · cases e
    · exact ⟨_, rfl, by simp [released, acquired, Call.releases, Call.acquires],
        by simp [acquired, Call.acquires]⟩
    · exact ⟨_, rfl, by simp [released, acquired, Call.releases, Call.acquires],
        by simp [acquired, Call.acquires]⟩
  cases g
  · cases e
    · exact ⟨_, rfl, by simp [released, acquired, Call.releases, Call.acquires],
        by simp [acquired, Call.acquires]⟩
    · exact ⟨_, rfl, by simp [released, acquired, Call.releases, Call.acquires],
        by simp [acquired, Call.acquires]⟩
  simp at hfail

theorem init_success (env : Env)
    (h1 : env.SDL_Init = true) (h2 : env.TTF_Init = true)
    (h3 : env.SDL_CreateWindow ≠ none) (h4 : env.SDL_CreateRenderer ≠ none)
    (h5 : env.malloc ≠ none) (h6 : env.Clay_Initialize = true) :
    ∃ res t, init env = Except.ok (res, t) := by
  obtain ⟨a, b, c, d, e, f, g⟩ := env
  simp only at h1 h2 h3 h4 h5 h6
  subst h1 h2 h6
  cases c with
  | none => exact absurd rfl h3
  | some window =>
    cases d with
    | none => exact absurd rfl h4
    | some renderer =>
      cases f with
      | none => exact absurd rfl h5
      | some memory => exact ⟨_, _, rfl⟩

theorem Shape_frame (font : Option Handle) (f : Frame) (w : World) (h : Shape w)
    (hoffsets : ∀ p ∈ f.events, ∀ cb ∈ p.hover, (cb.elementId.offset : Int) < 2) :
    ∃ w1, frame font f w
        = some (f.events.all (fun p => decide (p.e ≠ SDL_Event.QUIT)), w1) ∧ Shape w1 := by
  obtain ⟨d1, drained, -, hdrain, hopt1, hcount1, -, -, -⟩ :=
    drainEvents_spec f.events true w.dropdown h.1 h.2 hoffsets
  obtain ⟨layout, hlayout, -, -, -⟩ := buildLayout_of_Shape f d1 hopt1 hcount1
  exact ⟨{ dropdown := d1,
           trace := w.trace ++ drained ++ layout ++ render font f.renderCommands },
    by simp [frame, hdrain w.trace, hlayout], hopt1, hcount1⟩

theorem mainLoop_returns (font : Option Handle) (frames : List Frame) (w : World)
    (h : Shape w)
    (hoffsets : ∀ f ∈ frames, ∀ p ∈ f.events, ∀ cb ∈ p.hover,
      (cb.elementId.offset : Int) < 2)
    (hquit : ∃ f ∈ frames, ∃ p ∈ f.events, p.e = SDL_Event.QUIT) :
    ∃ w1, mainLoop font frames w = Except.ok w1 := by
  induction frames generalizing w with
  | nil =>
    obtain ⟨f, hf, -⟩ := hquit
    simp at hf
  | cons f fs ih =>
    obtain ⟨w1, hframe, hshape⟩ :=
      Shape_frame font f w h (hoffsets f (List.mem_cons_self _ _))
    cases hall : f.events.all (fun p => decide (p.e ≠ SDL_Event.QUIT))
    · exact ⟨w1, by simp only [mainLoop, hframe, hall, Bool.false_eq_true, if_false]⟩
    · have hquit1 : ∃ g ∈ fs, ∃ p ∈ g.events, p.e = SDL_Event.QUIT := by
        obtain ⟨g, hg, p, hp, hpe⟩ := hquit
        rcases List.mem_cons.mp hg with rfl | hg1
        · rw [List.all_eq_true] at hall
          have := hall p hp
          simp [hpe] at this
        · exact ⟨g, hg1, p, hp, hpe⟩
      obtain ⟨w2, hw2⟩ :=
        ih w1 hshape (fun g hg => hoffsets g (List.mem_cons_of_mem _ hg)) hquit1
      exact ⟨w2, by simp only [mainLoop, hframe, hall, if_true, hw2]⟩

/-- C4: the code at the failing input.  Every start-up call succeeds except
`TTF_OpenFont`, which returns NULL, and a quit event is pending in the first pass:
`main` makes no test of the font, runs its loop and returns 0, where the claim requires
a non-zero exit code; a failure of the call just before it, `SDL_CreateRenderer`,
returns 1. -/
theorem main_returns_zero_without_font :
    (⟨true, true, some 1, some 2, none, some 4, true⟩ : Env).TTF_OpenFont = none ∧
    (∃ tr, main ⟨true, true, some 1, some 2, none, some 4, true⟩
        [⟨[⟨SDL_Event.QUIT, []⟩], "Hello", fun _ => false, []⟩] = Except.ok (0, tr)) ∧
    (∃ tr, main ⟨true, true, some 1, none, none, some 4, true⟩
        [⟨[⟨SDL_Event.QUIT, []⟩], "Hello", fun _ => false, []⟩] = Except.ok (1, tr)) :=
  ⟨rfl, ⟨_, rfl⟩, ⟨_, rfl⟩⟩

/-- The exit codes of `main` as the code stands: 1 whenever one of the six tested
start-up calls fails; 0 when the six succeed and a quit event arrives (hover offsets
below `optionCount`), whatever `TTF_OpenFont` returned. -/
theorem main_exit_code (env : Env) (frames : List Frame) :
    ((env.SDL_Init = false ∨ env.TTF_Init = false ∨ env.SDL_CreateWindow = none ∨
        env.SDL_CreateRenderer = none ∨ env.malloc = none ∨ env.Clay_Initialize = false) →
      ∃ tr, main env frames = Except.ok (1, tr)) ∧
    (env.SDL_Init = true → env.TTF_Init = true → env.SDL_CreateWindow ≠ none →
      env.SDL_CreateRenderer ≠ none → env.malloc ≠ none → env.Clay_Initialize = true →
      (∀ f ∈ frames, ∀ p ∈ f.events, ∀ cb ∈ p.hover,
        (cb.elementId.offset : Int) < dropdownState.optionCount) →
      (∃ f ∈ frames, ∃ p ∈ f.events, p.e = SDL_Event.QUIT) →
      ∃ tr, main env frames = Except.ok (0, tr)) := by
  constructor
  · intro hfail
    obtain ⟨tr, hinit, -, -⟩ := init_failure env hfail
    exact ⟨tr, by simp only [main, hinit]⟩
  · intro h1 h2 h3 h4 h5 h6 hoffsets hquit
    obtain ⟨res, t, hinit⟩ := init_success env h1 h2 h3 h4 h5 h6
    obtain ⟨w, hw⟩ := mainLoop_returns res.font frames
      { dropdown := dropdownState, trace := t } ⟨rfl, rfl⟩ hoffsets hquit
    exact ⟨w.trace ++ [Call.free res.memory, Call.TTF_CloseFont res.font,
      Call.SDL_DestroyRenderer res.renderer, Call.SDL_DestroyWindow res.window,
      Call.TTF_Quit, Call.SDL_Quit], by simp only [main, hinit, hw]⟩

/-- C5: on every start-up failure on which `main` exits, the resources released along
the run are exactly the resources acquired along it, each once (the acquired ones are
pairwise distinct and the released list is a reordering of them, in fact their
reverse), so nothing acquired is left and nothing else is released. -/
theorem startup_failure_releases_acquired (env : Env) (frames : List Frame)
    (hfail : env.SDL_Init = false ∨ env.TTF_Init = false ∨ env.SDL_CreateWindow = none ∨
      env.SDL_CreateRenderer = none ∨ env.malloc = none ∨ env.Clay_Initialize = false) :
    ∃ tr, main env frames = Except.ok (1, tr) ∧
      (released tr).Perm (acquired tr) ∧
      (acquired tr).Nodup ∧
      released tr = (acquired tr).reverse := by
  obtain ⟨tr, hinit, hrev, hnodup⟩ := init_failure env hfail
  refine ⟨tr, by simp only [main, hinit], ?_, hnodup, hrev⟩
  rw [hrev]
  exact List.reverse_perm _

/-- C5, at a concrete input: `Clay_Initialize` fails after everything else, the font
included, was acquired. -/
theorem startup_failure_releases_acquired_witness :
    ∃ tr, main ⟨true, true, some 1, some 2, some 3, some 4, false⟩ [] = Except.ok (1, tr) ∧
      (released tr).Perm (acquired tr) ∧
      (acquired tr).Nodup ∧
      released tr = (acquired tr).reverse :=
  startup_failure_releases_acquired ⟨true, true, some 1, some 2, some 3, some 4, false⟩ []
    (Or.inr (Or.inr (Or.inr (Or.inr (Or.inr rfl)))))

end I19cExample
